import Mathlib

/-!
Shallow embedding of the coldpack archiving pipeline
(`src/coldpack/config/settings.py`, `src/coldpack/core/archiver.py`,
`src/coldpack/core/verifier.py`, `src/coldpack/utils/filesystem.py`,
`src/coldpack/utils/sevenzip.py`), together with theorems settling the
specification claims.

Modelling conventions:
* `pathlib.Path` values are modelled as plain strings; `Path.name`,
  `Path.stem`, `Path.suffix`, `Path.parent` and `/` follow the CPython
  `pathlib` semantics on already-normalised paths (no trailing slashes).
* Python `int` is `Int`; Python `float` is modelled as `ℚ` (the claims
  under verification do not depend on IEEE rounding).
* Exceptions are `Except`; external effects (the filesystem, `py7zz`,
  the hash checker and the `par2` tool) are oracles packed into
  explicit environment structures.
* Python `dict[str, ...]` is an insertion-ordered association list.
-/

namespace Coldpack

/-! ### pathlib model -/

/-- Index of the last occurrence of `c` in `cs`, if any. -/
def lastIdxOf (cs : List Char) (c : Char) : Option Nat :=
  (cs.reverse.findIdx? (· = c)).map (fun j => cs.length - 1 - j)

/-- Python `str.lower()` (character-list form, so that concrete values
reduce in the kernel). -/
def strToLower (s : String) : String := ⟨s.toList.map Char.toLower⟩

/-- Python `str.upper()`. -/
def strToUpper (s : String) : String := ⟨s.toList.map Char.toUpper⟩

/-- Python `str.endswith(t)`. -/
def strEndsWith (s t : String) : Bool := t.toList.isSuffixOf s.toList

/-- Drop the last `n` characters. -/
def strDropRight (s : String) (n : Nat) : String :=
  ⟨s.toList.take (s.toList.length - n)⟩

namespace Path

/-- `pathlib.PurePath.name`: the final path component. -/
def name (p : String) : String :=
  match lastIdxOf p.toList '/' with
  | some i => ⟨p.toList.drop (i + 1)⟩
  | none => p

/-- `pathlib.PurePath.stem`: the final component with its last suffix
removed; a leading dot or a trailing dot is not a suffix separator. -/
def stem (p : String) : String :=
  let n := (name p).toList
  match lastIdxOf n '.' with
  | some i => if 0 < i ∧ i < n.length - 1 then ⟨n.take i⟩ else ⟨n⟩
  | none => ⟨n⟩

/-- `pathlib.PurePath.suffix`: the last dot-suffix of the final
component, or `""`. -/
def suffix (p : String) : String :=
  let n := (name p).toList
  match lastIdxOf n '.' with
  | some i => if 0 < i ∧ i < n.length - 1 then ⟨n.drop i⟩ else ""
  | none => ""

/-- `pathlib.PurePath.parent` (for normalised relative/absolute paths). -/
def parent (p : String) : String :=
  match lastIdxOf p.toList '/' with
  | some 0 => "/"
  | some i => ⟨p.toList.take i⟩
  | none => "."

/-- `pathlib` `/` operator rendered back to a string: `str(Path(p) / q)`. -/
def div (p q : String) : String :=
  if p = "." then q else if p = "/" then "/" ++ q else p ++ "/" ++ q

/-- `pathlib.PurePath.with_suffix`: replace the suffix of the final
component by `s` (the callers below always pass a dot-initial `s`). -/
def with_suffix (p s : String) : String :=
  let keep := p.toList.take (p.toList.length - (suffix p).toList.length)
  String.mk keep ++ s

end Path

/-! ### config/settings.py -/

/-- `SevenZipSettings.validate_dictionary_size` valid set. -/
def SEVENZIP_VALID_DICT_SIZES : List String :=
  ["128k", "1m", "4m", "16m", "64m", "256m", "512m"]

/-- `SevenZipSettings.validate_method` valid set. -/
def SEVENZIP_VALID_METHODS : List String :=
  ["LZMA2", "LZMA", "PPMd", "BZip2"]

/-- `SevenZipSettings` (config/settings.py): a validated instance. -/
structure SevenZipSettings where
  level : Int
  dictionary_size : String
  threads : Int
  solid : Bool
  method : String
  manual_settings : Bool
deriving DecidableEq, Repr

/-- Pydantic construction of `SevenZipSettings`: field constraints
(`level` in 1..9, `threads ≥ 0`) and the two field validators
(`validate_dictionary_size` lower-cases and checks membership,
`validate_method` checks membership), in field order. -/
def SevenZipSettings.make (level : Int) (dictionary_size : String)
    (threads : Int) (solid : Bool) (method : String)
    (manual_settings : Bool) : Except String SevenZipSettings :=
  if ¬ (1 ≤ level ∧ level ≤ 9) then
    .error "level: Input should be greater than or equal to 1 and less than or equal to 9"
  else if ¬ SEVENZIP_VALID_DICT_SIZES.contains (strToLower dictionary_size) then
    .error "Dictionary size must be one of: 128k, 1m, 4m, 16m, 64m, 256m, 512m"
  else if ¬ (0 ≤ threads) then
    .error "threads: Input should be greater than or equal to 0"
  else if ¬ SEVENZIP_VALID_METHODS.contains method then
    .error "Compression method must be one of: LZMA2, LZMA, PPMd, BZip2"
  else
    .ok ⟨level, strToLower dictionary_size, threads, solid, method, manual_settings⟩

/-- `SevenZipSettings()` defaults. -/
def SevenZipSettings.default : SevenZipSettings :=
  ⟨5, "16m", 0, true, "LZMA2", false⟩

/-- `CompressionSettings` (zstd profile, config/settings.py). -/
structure CompressionSettings where
  level : Int
  threads : Int
  long_mode : Bool
  long_distance : Option Int
  ultra_mode : Bool
deriving DecidableEq, Repr

/-- Pydantic construction of `CompressionSettings`: field constraints
(`level` in 1..22, `threads ≥ 0`, `long_distance` in 10..31 when given)
and `validate_ultra_mode` (ultra requires level ≥ 20). -/
def CompressionSettings.make (level : Int) (threads : Int)
    (long_mode : Bool) (long_distance : Option Int)
    (ultra_mode : Bool) : Except String CompressionSettings :=
  if ¬ (1 ≤ level ∧ level ≤ 22) then
    .error "level: Input should be greater than or equal to 1 and less than or equal to 22"
  else if ¬ (0 ≤ threads) then
    .error "threads: Input should be greater than or equal to 0"
  else if (match long_distance with
           | some d => decide (¬ (10 ≤ d ∧ d ≤ 31))
           | none => false : Bool) then
    .error "long_distance: Input should be between 10 and 31"
  else if ultra_mode ∧ level < 20 then
    .error "Ultra mode requires compression level >= 20"
  else
    .ok ⟨level, threads, long_mode, long_distance, ultra_mode⟩

/-- `PAR2Settings` (config/settings.py). -/
structure PAR2Settings where
  redundancy_percent : Int
  block_count : Int
deriving DecidableEq, Repr

/-- Pydantic construction of `PAR2Settings`: `redundancy_percent` in
1..50, `block_count` in 100..32768. -/
def PAR2Settings.make (redundancy_percent : Int) (block_count : Int) :
    Except String PAR2Settings :=
  if ¬ (1 ≤ redundancy_percent ∧ redundancy_percent ≤ 50) then
    .error "redundancy_percent: Input should be between 1 and 50"
  else if ¬ (100 ≤ block_count ∧ block_count ≤ 32768) then
    .error "block_count: Input should be between 100 and 32768"
  else
    .ok ⟨redundancy_percent, block_count⟩

/-- `PAR2Settings()` defaults. -/
def PAR2Settings.default : PAR2Settings := ⟨10, 2000⟩

/-! ### utils/sevenzip.py: optimize_7z_compression_settings -/

/-- `optimize_7z_compression_settings` (utils/sevenzip.py): derives a
7z profile from the measured source size over four size tiers.  The
pydantic construction (with its validators) is what
`SevenZipSettings(...)` performs at each branch. -/
def optimize_7z_compression_settings (source_size : Int) :
    Except String SevenZipSettings :=
  let SMALL_SIZE : Int := 100 * 1024 * 1024
  let MEDIUM_SIZE : Int := 1024 * 1024 * 1024
  let LARGE_SIZE : Int := 5 * 1024 * 1024 * 1024
  if source_size < SMALL_SIZE then
    SevenZipSettings.make 3 "4m" 0 true "LZMA2" false
  else if source_size < MEDIUM_SIZE then
    SevenZipSettings.make 5 "16m" 0 true "LZMA2" false
  else if source_size < LARGE_SIZE then
    SevenZipSettings.make 7 "32m" 0 true "LZMA2" false
  else
    SevenZipSettings.make 9 "64m" 0 true "LZMA2" false

/-! ### config/settings.py: ArchiveMetadata (record part) -/

/-- Modelled from the spec: `SUPPORTED_OUTPUT_FORMATS` lives in the
missing `config/constants.py`; the `archive_format` field docstring
("Archive format (7z only)") and the spec's single canonical output
container fix it to the one-element set. -/
def SUPPORTED_OUTPUT_FORMATS : List String := ["7z"]

/-- `ArchiveMetadata` (config/settings.py): the persisted archive
descriptor, after pydantic validation and `model_post_init`.
`datetime` values are modelled by their ISO strings. -/
structure ArchiveMetadata where
  source_path : String
  archive_path : String
  archive_name : String
  coldpack_version : String
  created_at : String
  created_at_iso : String
  archive_format : String
  sevenzip_settings : SevenZipSettings
  par2_settings : PAR2Settings
  file_count : Int
  directory_count : Int
  original_size : Int
  compressed_size : Int
  compression_ratio : ℚ
  verification_hashes : List (String × String)
  hash_files : List (String × String)
  par2_files : List String
  has_single_root : Bool
  root_directory : Option String
  processing_time_seconds : ℚ
  temp_directory_used : Option String
deriving DecidableEq

/-- `ArchiveMetadata.total_entries` property. -/
def ArchiveMetadata.total_entries (m : ArchiveMetadata) : Int :=
  m.file_count + m.directory_count

/-- `ArchiveMetadata.compression_percentage` property. -/
def ArchiveMetadata.compression_percentage (m : ArchiveMetadata) : ℚ :=
  (1 - m.compression_ratio) * 100

/-- Pydantic construction of `ArchiveMetadata`: the `ge` field
constraints and `validate_archive_format`, followed by
`model_post_init` (fill `created_at_iso`, run
`calculate_compression_ratio`, default `sevenzip_settings`).
`calculate_compression_ratio` always overwrites the supplied
`compression_ratio`. -/
def ArchiveMetadata.make
    (source_path archive_path archive_name : String)
    (coldpack_version created_at created_at_iso : String)
    (archive_format : String)
    (sevenzip_settings : Option SevenZipSettings)
    (par2_settings : PAR2Settings)
    (file_count directory_count original_size compressed_size : Int)
    (compression_ratio : ℚ)
    (verification_hashes hash_files : List (String × String))
    (par2_files : List String)
    (has_single_root : Bool) (root_directory : Option String)
    (processing_time_seconds : ℚ) (temp_directory_used : Option String) :
    Except String ArchiveMetadata :=
  if ¬ SUPPORTED_OUTPUT_FORMATS.contains archive_format then
    .error "Archive format must be one of: 7z"
  else if ¬ (0 ≤ file_count ∧ 0 ≤ directory_count ∧ 0 ≤ original_size ∧
             0 ≤ compressed_size ∧ 0 ≤ compression_ratio ∧
             0 ≤ processing_time_seconds) then
    .error "Input should be greater than or equal to 0"
  else
    let created_at_iso := if created_at_iso = "" then created_at else created_at_iso
    let compression_ratio : ℚ :=
      if 0 < original_size then (compressed_size : ℚ) / (original_size : ℚ) else 0
    let sevenzip_settings := sevenzip_settings.getD SevenZipSettings.default
    .ok ⟨source_path, archive_path, archive_name, coldpack_version,
         created_at, created_at_iso, archive_format, sevenzip_settings,
         par2_settings, file_count, directory_count, original_size,
         compressed_size, compression_ratio, verification_hashes,
         hash_files, par2_files, has_single_root, root_directory,
         processing_time_seconds, temp_directory_used⟩

/-! ### core/verifier.py -/

/-- Python exception classes distinguished by the verifier's
`try`/`except` clauses. -/
inductive PyExc where
  | fnf (msg : String)
  | py7zzImportError
  | py7zzFileNotFound
  | py7zzCorrupted
  | py7zzUnsupported
  | py7zzError (msg : String)
  | attributeError (msg : String)
  | exc (msg : String)
deriving DecidableEq, Repr

/-- `str(e)` for a modelled exception. -/
def PyExc.toMessage : PyExc → String
  | .fnf m => m
  | .py7zzImportError => "No module named py7zz"
  | .py7zzFileNotFound => "file not found"
  | .py7zzCorrupted => "corrupted archive"
  | .py7zzUnsupported => "unsupported format"
  | .py7zzError m => m
  | .attributeError m => m
  | .exc m => m

/-- `VerificationResult` (core/verifier.py). -/
structure VerificationResult where
  layer : String
  success : Bool
  message : String
  details : List (String × String) := []
deriving DecidableEq, Repr

/-- Oracles for the external effects the verifier invokes:
file existence, `py7zz.test_archive`,
`HashVerifier.verify_file_hash (archive, hash_file, algorithm)`,
`PAR2Manager.verify_recovery_files` at a redundancy percentage
(covering `PAR2Manager.__init__` failures), and
`ArchiveMetadata.load_from_toml` at a path. -/
structure VerifyEnv where
  pathExists : String → Bool
  test7z : String → Except PyExc Bool
  verifyFileHash : String → String → String → Except PyExc Bool
  par2Verify : String → Int → Except PyExc Bool
  loadMetadataToml : String → Except PyExc ArchiveMetadata

namespace ArchiveVerifier

/-- `ArchiveVerifier.verify_7z_integrity`: total, every exception class
is caught and mapped to a failed result. -/
def verify_7z_integrity (env : VerifyEnv) (archive_path : String) :
    VerificationResult :=
  match env.test7z archive_path with
  | .ok true => ⟨"7z_integrity", true, "7z integrity check passed", []⟩
  | .ok false => ⟨"7z_integrity", false, "7z integrity check failed", []⟩
  | .error .py7zzImportError =>
      ⟨"7z_integrity", false, "py7zz library not available for 7z verification", []⟩
  | .error .py7zzFileNotFound =>
      ⟨"7z_integrity", false, "Archive file not found", []⟩
  | .error .py7zzCorrupted =>
      ⟨"7z_integrity", false, "Archive is corrupted or damaged", []⟩
  | .error .py7zzUnsupported =>
      ⟨"7z_integrity", false, "Unsupported archive format", []⟩
  | .error (.py7zzError m) =>
      ⟨"7z_integrity", false, "py7zz error: " ++ m, []⟩
  | .error e =>
      ⟨"7z_integrity", false, "Unexpected verification error: " ++ e.toMessage, []⟩

/-- `ArchiveVerifier.verify_hash_files`: one result per supplied
algorithm, in dict (insertion) order; per-algorithm exceptions are
caught and mapped to failed results. -/
def verify_hash_files (env : VerifyEnv) (archive_path : String)
    (hash_files : List (String × String)) : List VerificationResult :=
  hash_files.map (fun ahp =>
    let algorithm := ahp.1
    match env.verifyFileHash archive_path ahp.2 algorithm with
    | .ok true =>
        ⟨algorithm ++ "_hash", true,
         strToUpper algorithm ++ " hash verification passed", []⟩
    | .ok false =>
        ⟨algorithm ++ "_hash", false,
         strToUpper algorithm ++ " hash verification failed", []⟩
    | .error e =>
        ⟨algorithm ++ "_hash", false,
         strToUpper algorithm ++ " verification error: " ++ e.toMessage, []⟩)

/-- `ArchiveVerifier.verify_par2_recovery`: redundancy comes from the
metadata's PAR2 settings when available, else defaults to 10;
exceptions (including a missing par2 tool) map to failed results. -/
def verify_par2_recovery (env : VerifyEnv) (par2_file : String)
    (par2_settings : Option PAR2Settings) : VerificationResult :=
  let redundancy := match par2_settings with
    | some s => s.redundancy_percent
    | none => 10
  match env.par2Verify par2_file redundancy with
  | .ok true => ⟨"par2_recovery", true, "PAR2 verification passed", []⟩
  | .ok false => ⟨"par2_recovery", false, "PAR2 verification failed", []⟩
  | .error e =>
      ⟨"par2_recovery", false, "PAR2 verification error: " ++ e.toMessage, []⟩

/-- The two fixed "hash file not provided" failure results that
`verify_complete` reports when no hash file at all is supplied. -/
def hashNotProvided : List VerificationResult :=
  ["sha256", "blake3"].map (fun algorithm =>
    ⟨algorithm ++ "_hash", false,
     strToUpper algorithm ++ " hash file not provided", []⟩)

/-- `ArchiveVerifier.verify_complete` (context entry point).
`hash_files = []` models both `None` and an empty dict (identical
under Python truthiness).  Raising `FileNotFoundError` is the
`.error` case.  The `except` wrapper around layer 1 is unreachable
because `verify_7z_integrity` catches everything itself; the same
holds for the wrappers around the hash and PAR2 layers. -/
def verify_complete (env : VerifyEnv) (archive_path : String)
    (hash_files : List (String × String)) (par2_file : Option String)
    (metadata : Option ArchiveMetadata) :
    Except PyExc (List VerificationResult) :=
  if ¬ env.pathExists archive_path then
    .error (.fnf ("Archive not found: " ++ archive_path))
  else
    -- Layer 1: 7z integrity (gate)
    let result := verify_7z_integrity env archive_path
    if ¬ result.success then
      .ok [result]
    else
      -- Layers 2 & 3: hash verification
      let results :=
        if hash_files ≠ [] then
          [result] ++ verify_hash_files env archive_path hash_files
        else
          [result] ++ hashNotProvided
      -- Layer 4: PAR2 recovery
      let results :=
        match par2_file with
        | some p =>
            results ++ [verify_par2_recovery env p
              (metadata.map (fun m => m.par2_settings))]
        | none =>
            results ++ [⟨"par2_recovery", false, "PAR2 file not provided", []⟩]
      .ok results

/-- `ArchiveVerifier._verify_complete_with_skip`: like
`verify_complete` but honouring `skip_layers`; note that absent hash
files produce no "not provided" results here. -/
def verify_complete_with_skip (env : VerifyEnv) (archive_path : String)
    (hash_files : List (String × String)) (par2_file : Option String)
    (metadata : Option ArchiveMetadata) (skip_layers : List String) :
    Except PyExc (List VerificationResult) :=
  if ¬ env.pathExists archive_path then
    .error (.fnf ("Archive not found: " ++ archive_path))
  else if "7z_integrity" ∉ skip_layers ∧
          ¬ (verify_7z_integrity env archive_path).success then
    -- gate attempted and failed: stop immediately
    .ok [verify_7z_integrity env archive_path]
  else
    let results :=
      if "7z_integrity" ∉ skip_layers then
        [verify_7z_integrity env archive_path]
      else []
    -- Layers 2 & 3: hash verification (no "not provided" fallback)
    let results :=
      if hash_files ≠ [] ∧
         ¬ ("sha256_hash" ∈ skip_layers ∧ "blake3_hash" ∈ skip_layers) then
        let filtered_hash_files :=
          hash_files.filter (fun ap => (ap.1 ++ "_hash") ∉ skip_layers)
        if filtered_hash_files ≠ [] then
          results ++ verify_hash_files env archive_path filtered_hash_files
        else results
      else results
    -- Layer 4: PAR2 recovery
    let results :=
      if "par2_recovery" ∉ skip_layers then
        match par2_file with
        | some p =>
            results ++ [verify_par2_recovery env p
              (metadata.map (fun m => m.par2_settings))]
        | none =>
            results ++ [⟨"par2_recovery", false, "PAR2 file not provided", []⟩]
      else results
    .ok results

/-- Archive base name used by the discovery helpers: `Path.stem` with a
residual `.tar` stripped. -/
def discovery_archive_name (archive_obj : String) : String :=
  let archive_name := Path.stem archive_obj
  if strEndsWith archive_name ".tar" then strDropRight archive_name 4 else archive_name

/-- `ArchiveVerifier._discover_hash_files`: first match per algorithm
over the fixed, ordered candidate locations, honouring skip layers. -/
def discover_hash_files (env : VerifyEnv) (archive_obj : String)
    (skip_layers : List String) : List (String × String) :=
  let archive_name := discovery_archive_name archive_obj
  let hash_search_locations : List (String × String) :=
    [ (Path.with_suffix archive_obj (Path.suffix archive_obj ++ ".sha256"),
       Path.with_suffix archive_obj (Path.suffix archive_obj ++ ".blake3")),
      (Path.div (Path.div (Path.parent archive_obj) "metadata")
         (Path.name archive_obj ++ ".sha256"),
       Path.div (Path.div (Path.parent archive_obj) "metadata")
         (Path.name archive_obj ++ ".blake3")),
      (Path.div (Path.div (Path.div (Path.parent archive_obj) archive_name)
           "metadata") (Path.name archive_obj ++ ".sha256"),
       Path.div (Path.div (Path.div (Path.parent archive_obj) archive_name)
           "metadata") (Path.name archive_obj ++ ".blake3")) ]
  hash_search_locations.foldl (fun hash_files loc =>
    let hash_files :=
      if env.pathExists loc.1 && !skip_layers.contains "sha256_hash" &&
         (hash_files.lookup "sha256").isNone then
        hash_files ++ [("sha256", loc.1)]
      else hash_files
    if env.pathExists loc.2 && !skip_layers.contains "blake3_hash" &&
       (hash_files.lookup "blake3").isNone then
      hash_files ++ [("blake3", loc.2)]
    else hash_files) []

/-- `ArchiveVerifier._discover_par2_file`. -/
def discover_par2_file (env : VerifyEnv) (archive_obj : String)
    (skip_layers : List String) : Option String :=
  if skip_layers.contains "par2_recovery" then none
  else
    let archive_name := discovery_archive_name archive_obj
    let par2_search_locations : List String :=
      [ Path.with_suffix archive_obj (Path.suffix archive_obj ++ ".par2"),
        Path.div (Path.div (Path.parent archive_obj) "metadata")
          (Path.name archive_obj ++ ".par2"),
        Path.div (Path.div (Path.div (Path.parent archive_obj) archive_name)
          "metadata") (Path.name archive_obj ++ ".par2") ]
    par2_search_locations.find? (fun p => env.pathExists p)

/-- `ArchiveVerifier._discover_metadata`: first candidate path that
exists and loads; load errors are swallowed and search continues. -/
def discover_metadata (env : VerifyEnv) (archive_obj : String) :
    Option ArchiveMetadata :=
  let archive_name := discovery_archive_name archive_obj
  let metadata_paths : List String :=
    [ Path.div (Path.div (Path.parent archive_obj) "metadata") "metadata.toml",
      Path.div (Path.div (Path.div (Path.parent archive_obj) archive_name)
        "metadata") "metadata.toml",
      Path.div (Path.parent archive_obj) "metadata.toml" ]
  metadata_paths.foldl (fun found metadata_path =>
    match found with
    | some m => some m
    | none =>
        if env.pathExists metadata_path then
          match env.loadMetadataToml metadata_path with
          | .ok m => some m
          | .error _ => none
        else none) none

/-- `ArchiveVerifier.verify_auto` (disk-only entry point). -/
def verify_auto (env : VerifyEnv) (archive_path : String)
    (skip_layers : List String) : Except PyExc (List VerificationResult) :=
  if ¬ env.pathExists archive_path then
    .error (.fnf ("Archive not found: " ++ archive_path))
  else
    let hash_files := discover_hash_files env archive_path skip_layers
    let par2_file := discover_par2_file env archive_path skip_layers
    let metadata := discover_metadata env archive_path
    verify_complete_with_skip env archive_path hash_files par2_file
      metadata skip_layers

end ArchiveVerifier

/-! ### core/archiver.py -/

/-- `ArchivingError` (core/archiver.py). -/
structure ArchivingError where
  msg : String
deriving DecidableEq, Repr

namespace ColdStorageArchiver

/-- `create_archive` archive-name derivation (core/archiver.py lines
142-144): a caller-supplied name is used as-is, otherwise
`source_path.stem`. -/
def derive_archive_name (source_path : String)
    (archive_name : Option String) : String :=
  match archive_name with
  | some n => n
  | none => Path.stem source_path

/-- `_create_metadata` archive-name derivation (core/archiver.py lines
789-792): `archive_path.stem` with a residual `.tar` stripped. -/
def metadata_archive_name (archive_path : String) : String :=
  let archive_name := Path.stem archive_path
  if strEndsWith archive_name ".tar" then strDropRight archive_name 4
  else archive_name

/-- A Python runtime value of the shapes flowing through
`_verify_hash_files`: either a single `VerificationResult` or the
`list[VerificationResult]` that `ArchiveVerifier.verify_hash_files`
actually returns. -/
inductive PyValue where
  | result (r : VerificationResult)
  | resultList (rs : List VerificationResult)
deriving DecidableEq

/-- Dynamic attribute access `v.success`: raises `AttributeError` on a
list value. -/
def PyValue.getattr_success : PyValue → Except PyExc Bool
  | .result r => .ok r.success
  | .resultList _ =>
      .error (.attributeError "list object has no attribute success")

/-- Dynamic attribute access `v.message`. -/
def PyValue.getattr_message : PyValue → Except PyExc String
  | .result r => .ok r.message
  | .resultList _ =>
      .error (.attributeError "list object has no attribute message")

/-- `ColdStorageArchiver._verify_hash_files` (pipeline step logged as
"Step 7: Verifying hash files").  The source binds
`result = self.verifier.verify_hash_files(archive_path, hash_files)`
— a `list[VerificationResult]` — then reads `result.success` and
`result.message`; the dynamic attribute accesses are embedded through
`PyValue.getattr_success`/`getattr_message`.  Any exception raised
inside the `try` block (including the `raise ArchivingError(...)` on a
falsy `result.success`) is caught by `except Exception` and re-wrapped
as `ArchivingError("Hash verification failed: " + str(e))`. -/
def verify_hash_files_step (env : VerifyEnv) (archive_path : String)
    (hash_files : List (String × String)) : Except ArchivingError Unit :=
  let result := PyValue.resultList
    (ArchiveVerifier.verify_hash_files env archive_path hash_files)
  match result.getattr_success with
  | .error e => .error ⟨"Hash verification failed: " ++ e.toMessage⟩
  | .ok success =>
      if ¬ success then
        match result.getattr_message with
        | .error e => .error ⟨"Hash verification failed: " ++ e.toMessage⟩
        | .ok message =>
            .error ⟨"Hash verification failed: Hash verification failed: "
                    ++ message⟩
      else .ok ()

end ColdStorageArchiver

/-! ### utils/filesystem.py: safe_file_operations -/

/-- The tracked-path state of one `safe_file_operations` context. -/
structure SafeFileOps where
  cleanup_on_error : Bool
  created_files : List String
  created_dirs : List String
deriving DecidableEq, Repr

/-- An abstract filesystem: the sets of existing file and directory
paths. -/
structure FS where
  files : List String
  dirs : List String
deriving DecidableEq, Repr

/-- `q` lies strictly below directory `d`. -/
def pathUnder (d q : String) : Bool := (d ++ "/").toList.isPrefixOf q.toList

/-- Oracles for deletion outcomes: whether `Path.unlink` /
`shutil.rmtree` succeeds on a given existing path (`false` models an
`OSError`, which the cleanup logs and swallows). -/
structure CleanupEnv where
  unlinkOk : String → Bool
  rmtreeOk : String → Bool

/-- Observation of one loop iteration of `_cleanup_created_files`. -/
inductive CleanupEvent where
  | fileRemoved (p : String)
  | fileFailed (p : String)
  | fileSkipped (p : String)
  | dirRemoved (p : String)
  | dirFailed (p : String)
  | dirSkipped (p : String)
deriving DecidableEq, Repr

/-- The path an event is about. -/
def CleanupEvent.path : CleanupEvent → String
  | .fileRemoved p | .fileFailed p | .fileSkipped p
  | .dirRemoved p | .dirFailed p | .dirSkipped p => p

/-- One iteration of the file loop of `_cleanup_created_files`:
`if file_path.exists(): file_path.unlink()`, with `OSError` caught
and logged. -/
def unlinkStep (env : CleanupEnv) (fs : FS) (p : String) :
    FS × CleanupEvent :=
  if fs.files.contains p then
    if env.unlinkOk p then
      (⟨fs.files.filter (· != p), fs.dirs⟩, .fileRemoved p)
    else (fs, .fileFailed p)
  else (fs, .fileSkipped p)

/-- One iteration of the directory loop of `_cleanup_created_files`:
`if dir_path.exists(): shutil.rmtree(dir_path)`, with `OSError`
caught and logged; `rmtree` removes the directory and everything
below it. -/
def rmtreeStep (env : CleanupEnv) (fs : FS) (d : String) :
    FS × CleanupEvent :=
  if fs.dirs.contains d then
    if env.rmtreeOk d then
      (⟨fs.files.filter (fun f => !pathUnder d f),
        fs.dirs.filter (fun x => x != d && !pathUnder d x)⟩, .dirRemoved d)
    else (fs, .dirFailed d)
  else (fs, .dirSkipped d)

/-- The file loop of `_cleanup_created_files` over `created_files` in
registration order. -/
def cleanupFiles (env : CleanupEnv) : List String → FS →
    FS × List CleanupEvent
  | [], fs => (fs, [])
  | p :: ps, fs =>
      let step := unlinkStep env fs p
      let rest := cleanupFiles env ps step.1
      (rest.1, step.2 :: rest.2)

/-- The directory loop of `_cleanup_created_files` (the caller passes
`created_dirs` reversed). -/
def cleanupDirs (env : CleanupEnv) : List String → FS →
    FS × List CleanupEvent
  | [], fs => (fs, [])
  | d :: ds, fs =>
      let step := rmtreeStep env fs d
      let rest := cleanupDirs env ds step.1
      (rest.1, step.2 :: rest.2)

/-- `safe_file_operations._cleanup_created_files`: files first (in
registration order), then directories in reverse registration order. -/
def cleanup_created_files (env : CleanupEnv) (ops : SafeFileOps)
    (fs : FS) : FS × List CleanupEvent :=
  let filePhase := cleanupFiles env ops.created_files fs
  let dirPhase := cleanupDirs env ops.created_dirs.reverse filePhase.1
  (dirPhase.1, filePhase.2 ++ dirPhase.2)

/-- `safe_file_operations.__exit__`: cleanup runs exactly when an
exception is propagating and `cleanup_on_error` is set. -/
def safe_file_operations_exit (env : CleanupEnv) (ops : SafeFileOps)
    (exc_present : Bool) (fs : FS) : FS × List CleanupEvent :=
  if exc_present && ops.cleanup_on_error then
    cleanup_created_files env ops fs
  else (fs, [])

/-! ### config/settings.py: ArchiveMetadata TOML persistence

`save_to_toml` / `load_from_toml` are modelled at the dictionary
level: the external TOML encoder/decoder pair is assumed to round-trip
the dictionary structure, with the one relevant quirk of the `toml`
encoder that `None`-valued keys are skipped (hence `Option` values in
the sections).  The descriptor's sections are one level deep with
`dict[str, str]` leaves, so no recursion is needed. -/

/-- A TOML value as it appears in the descriptor file. -/
inductive TomlValue where
  | str (s : String)
  | int (n : Int)
  | float (q : ℚ)
  | bool (b : Bool)
  | strList (xs : List String)
  | strTable (kvs : List (String × String))
deriving DecidableEq

/-- One descriptor section: an ordered key/value table. -/
abbrev TomlSection := List (String × TomlValue)

/-- The parsed descriptor file; a section absent from the file is `[]`
(matching `toml_data.get(section, {})`). -/
structure TomlData where
  metadata : TomlSection := []
  content : TomlSection := []
  archive : TomlSection := []
  sevenzip : TomlSection := []
  par2 : TomlSection := []
  integrity : TomlSection := []
  processing : TomlSection := []
deriving DecidableEq

/-- `round(q, n)` (the claims do not depend on the half-even tie rule,
so ties round half-up here). -/
def roundTo (q : ℚ) (n : ℕ) : ℚ := ((round (q * 10 ^ n) : ℤ) : ℚ) / 10 ^ n

/-- `section.get(k, d)` for a string-valued key, with pydantic
rejecting a non-string value. -/
def tomlGetStr (t : TomlSection) (k : String) (d : String) :
    Except String String :=
  match t.lookup k with
  | none => .ok d
  | some (.str s) => .ok s
  | some _ => .error ("Input should be a valid string: " ++ k)

/-- `section.get(k)` for an optional string-valued key. -/
def tomlGetOptStr (t : TomlSection) (k : String) :
    Except String (Option String) :=
  match t.lookup k with
  | none => .ok none
  | some (.str s) => .ok (some s)
  | some _ => .error ("Input should be a valid string: " ++ k)

/-- `section.get(k, d)` for an int-valued key. -/
def tomlGetInt (t : TomlSection) (k : String) (d : Int) :
    Except String Int :=
  match t.lookup k with
  | none => .ok d
  | some (.int n) => .ok n
  | some _ => .error ("Input should be a valid integer: " ++ k)

/-- `section.get(k, d)` for a float-valued key (an int value coerces). -/
def tomlGetFloat (t : TomlSection) (k : String) (d : ℚ) :
    Except String ℚ :=
  match t.lookup k with
  | none => .ok d
  | some (.float q) => .ok q
  | some (.int n) => .ok (n : ℚ)
  | some _ => .error ("Input should be a valid number: " ++ k)

/-- `section.get(k, d)` for a bool-valued key. -/
def tomlGetBool (t : TomlSection) (k : String) (d : Bool) :
    Except String Bool :=
  match t.lookup k with
  | none => .ok d
  | some (.bool b) => .ok b
  | some _ => .error ("Input should be a valid boolean: " ++ k)

/-- `section.get(k, d)` for a list-of-strings key. -/
def tomlGetStrList (t : TomlSection) (k : String) (d : List String) :
    Except String (List String) :=
  match t.lookup k with
  | none => .ok d
  | some (.strList xs) => .ok xs
  | some _ => .error ("Input should be a valid list: " ++ k)

/-- `section.get(k, d)` for a string-table key. -/
def tomlGetStrTable (t : TomlSection) (k : String)
    (d : List (String × String)) :
    Except String (List (String × String)) :=
  match t.lookup k with
  | none => .ok d
  | some (.strTable kvs) => .ok kvs
  | some _ => .error ("Input should be a valid dict: " ++ k)

/-- `ArchiveMetadata._get_sevenzip_dict` (the settings are always set
after `model_post_init`, so the empty-dict branch is unreachable). -/
def ArchiveMetadata.get_sevenzip_dict (m : ArchiveMetadata) : TomlSection :=
  [ ("level", .int m.sevenzip_settings.level),
    ("dictionary_size", .str m.sevenzip_settings.dictionary_size),
    ("threads", .int m.sevenzip_settings.threads),
    ("solid", .bool m.sevenzip_settings.solid),
    ("method", .str m.sevenzip_settings.method) ]

/-- `ArchiveMetadata.to_toml_dict` (also the payload `save_to_toml`
writes): `None`-valued keys (`root_directory`, `temp_directory`) are
skipped by the TOML encoder. -/
def ArchiveMetadata.to_toml_dict (m : ArchiveMetadata) : TomlData :=
  { metadata :=
      [ ("coldpack_version", .str m.coldpack_version),
        ("created_at", .str m.created_at_iso),
        ("archive_name", .str m.archive_name),
        ("source_path", .str m.source_path),
        ("archive_path", .str m.archive_path) ],
    content :=
      [ ("file_count", .int m.file_count),
        ("directory_count", .int m.directory_count),
        ("total_entries", .int m.total_entries),
        ("original_size", .int m.original_size),
        ("compressed_size", .int m.compressed_size),
        ("compression_ratio", .float (roundTo m.compression_ratio 4)),
        ("compression_percentage", .float (roundTo m.compression_percentage 2)),
        ("has_single_root", .bool m.has_single_root) ] ++
      (match m.root_directory with
       | some r => [("root_directory", TomlValue.str r)]
       | none => []),
    archive := [ ("format", .str m.archive_format) ],
    sevenzip := m.get_sevenzip_dict,
    par2 :=
      [ ("redundancy_percent", .int m.par2_settings.redundancy_percent),
        ("block_count", .int m.par2_settings.block_count),
        ("files", .strList m.par2_files) ],
    integrity :=
      [ ("hashes", .strTable m.verification_hashes),
        ("hash_files", .strTable m.hash_files) ],
    processing :=
      [ ("time_seconds", .float m.processing_time_seconds) ] ++
      (match m.temp_directory_used with
       | some t => [("temp_directory", TomlValue.str t)]
       | none => []) }

/-- `SevenZipSettings(**sevenzip_section)`: keyword construction from a
section, absent keys falling back to the field defaults, then pydantic
validation (`manual_settings` is not serialised, so it defaults). -/
def SevenZipSettings.from_toml (t : TomlSection) :
    Except String SevenZipSettings := do
  let level ← tomlGetInt t "level" 5
  let dictionary_size ← tomlGetStr t "dictionary_size" "16m"
  let threads ← tomlGetInt t "threads" 0
  let solid ← tomlGetBool t "solid" true
  let method ← tomlGetStr t "method" "LZMA2"
  SevenZipSettings.make level dictionary_size threads solid method false

/-- The `sevenzip_section` handling of `load_from_toml`: a nonempty
section reconstructs `SevenZipSettings(**sevenzip_section)`, an empty
or absent one yields `None`. -/
def ArchiveMetadata.sevenzip_section_settings (t : TomlSection) :
    Except String (Option SevenZipSettings) :=
  if t ≠ [] then (SevenZipSettings.from_toml t).map some else pure none

/-- `ArchiveMetadata.load_from_toml`.  `now_iso` models
`datetime.now().isoformat()`, the default used when `created_at` is
absent; `datetime.fromisoformat` on a well-formed ISO string is the
identity in the ISO-string representation of datetimes. -/
def ArchiveMetadata.load_from_toml (t : TomlData) (now_iso : String) :
    Except String ArchiveMetadata := do
  let archive_format ← tomlGetStr t.archive "format" "7z"
  let sevenzip_settings ← ArchiveMetadata.sevenzip_section_settings t.sevenzip
  let redundancy_percent ← tomlGetInt t.par2 "redundancy_percent" 10
  let block_count ← tomlGetInt t.par2 "block_count" 2000
  let par2_settings ← PAR2Settings.make redundancy_percent block_count
  let source_path ← tomlGetStr t.metadata "source_path" ""
  let archive_path ← tomlGetStr t.metadata "archive_path" ""
  let archive_name ← tomlGetStr t.metadata "archive_name" ""
  let coldpack_version ← tomlGetStr t.metadata "coldpack_version" "unknown"
  let created_at ← tomlGetStr t.metadata "created_at" now_iso
  let created_at_iso ← tomlGetStr t.metadata "created_at" ""
  let file_count ← tomlGetInt t.content "file_count" 0
  let directory_count ← tomlGetInt t.content "directory_count" 0
  let original_size ← tomlGetInt t.content "original_size" 0
  let compressed_size ← tomlGetInt t.content "compressed_size" 0
  let compression_ratio ← tomlGetFloat t.content "compression_ratio" 0
  let has_single_root ← tomlGetBool t.content "has_single_root" false
  let root_directory ← tomlGetOptStr t.content "root_directory"
  let verification_hashes ← tomlGetStrTable t.integrity "hashes" []
  let hash_files ← tomlGetStrTable t.integrity "hash_files" []
  let par2_files ← tomlGetStrList t.par2 "files" []
  let processing_time_seconds ← tomlGetFloat t.processing "time_seconds" 0
  let temp_directory_used ← tomlGetOptStr t.processing "temp_directory"
  ArchiveMetadata.make source_path archive_path archive_name
    coldpack_version created_at created_at_iso archive_format
    sevenzip_settings par2_settings file_count directory_count
    original_size compressed_size compression_ratio
    verification_hashes hash_files par2_files has_single_root
    root_directory processing_time_seconds temp_directory_used

/-! ### Helpers for the claim theorems -/

instance {e a : Type} [DecidableEq e] [DecidableEq a] :
    DecidableEq (Except e a) := fun x y =>
  match x, y with
  | .ok u, .ok v =>
      if h : u = v then .isTrue (by rw [h])
      else .isFalse (by intro hh; cases hh; exact h rfl)
  | .error u, .error v =>
      if h : u = v then .isTrue (by rw [h])
      else .isFalse (by intro hh; cases hh; exact h rfl)
  | .ok _, .error _ => .isFalse (by intro hh; cases hh)
  | .error _, .ok _ => .isFalse (by intro hh; cases hh)

/-- Whether an `Except` computation succeeded. -/
def exceptIsOk {e a : Type} : Except e a → Bool
  | .ok _ => true
  | .error _ => false

/-- A verification environment where every external check passes. -/
def envAllPass : VerifyEnv :=
  { pathExists := fun _ => true,
    test7z := fun _ => .ok true,
    verifyFileHash := fun _ _ _ => .ok true,
    par2Verify := fun _ _ => .ok true,
    loadMetadataToml := fun _ => .error (.exc "no metadata") }

/-- A verification environment whose container self-test reports a
corrupted archive. -/
def envGateFails : VerifyEnv :=
  { envAllPass with test7z := fun _ => .ok false }

/-- A verification environment where the archive path does not exist. -/
def envNoArchive : VerifyEnv :=
  { envAllPass with pathExists := fun _ => false }

/-! ### Claim theorems -/

/-- C1: the claim states that pipeline Step 7 (hash verification of
freshly generated sidecars) succeeds; on the code it never can:
`ColdStorageArchiver._verify_hash_files` binds the
`list[VerificationResult]` returned by
`ArchiveVerifier.verify_hash_files` and reads `.success` off the list,
raising `AttributeError` (message in CPython:
`'list' object has no attribute 'success'`), which the surrounding
`except` re-wraps into `ArchivingError` — for every environment, every
archive and every hash-file map, even when all hashes verify. -/
theorem C1_step7_hash_verification_always_fails (env : VerifyEnv)
    (archive_path : String) (hash_files : List (String × String)) :
    ColdStorageArchiver.verify_hash_files_step env archive_path hash_files =
      .error ⟨"Hash verification failed: list object has no attribute success"⟩ :=
  rfl

/-- C2: in both verification entry points, when the container-integrity
gate is attempted and does not succeed, the run stops at once and the
result list is exactly that one result — no hash or recovery layer is
reported. -/
theorem C2_gate_short_circuits (env : VerifyEnv) (archive_path : String)
    (hash_files : List (String × String)) (par2_file : Option String)
    (metadata : Option ArchiveMetadata) (skip_layers : List String)
    (hex : env.pathExists archive_path = true)
    (hfail : (ArchiveVerifier.verify_7z_integrity env archive_path).success = false) :
    ArchiveVerifier.verify_complete env archive_path hash_files par2_file
        metadata =
      .ok [ArchiveVerifier.verify_7z_integrity env archive_path] ∧
    ("7z_integrity" ∉ skip_layers →
      ArchiveVerifier.verify_complete_with_skip env archive_path hash_files
          par2_file metadata skip_layers =
        .ok [ArchiveVerifier.verify_7z_integrity env archive_path]) := by
  constructor
  · unfold ArchiveVerifier.verify_complete
    simp [hex, hfail]
  · intro hskip
    unfold ArchiveVerifier.verify_complete_with_skip
    simp [hex, hfail, hskip]

/-- Witness for C2 at a concrete input: the self-test reports failure,
and the run reports exactly the single gate result. -/
theorem C2_gate_short_circuits_witness :
    envGateFails.pathExists "a.7z" = true ∧
    (ArchiveVerifier.verify_7z_integrity envGateFails "a.7z").success = false ∧
    ArchiveVerifier.verify_complete envGateFails "a.7z"
        [("sha256", "a.7z.sha256")] (some "a.7z.par2") none =
      .ok [⟨"7z_integrity", false, "7z integrity check failed", []⟩] :=
  ⟨by decide, by decide,
   (C2_gate_short_circuits envGateFails "a.7z" [("sha256", "a.7z.sha256")]
      (some "a.7z.par2") none [] (by decide) (by decide)).1⟩

/-- C3 counterexample: a run that passes the gate with only a sha256
sidecar supplied (blake3 absent, nothing skipped, no PAR2 file).  The
result list contains no blake3 layer at all — the absent blake3
sidecar is silently omitted instead of being reported as a failed
"not provided" layer, refuting the claim as stated. -/
theorem C3_counterexample :
    ArchiveVerifier.verify_complete envAllPass "a.7z"
        [("sha256", "a.7z.sha256")] none none =
      .ok [⟨"7z_integrity", true, "7z integrity check passed", []⟩,
           ⟨"sha256_hash", true, "SHA256 hash verification passed", []⟩,
           ⟨"par2_recovery", false, "PAR2 file not provided", []⟩] ∧
    ([⟨"7z_integrity", true, "7z integrity check passed", []⟩,
      ⟨"sha256_hash", true, "SHA256 hash verification passed", []⟩,
      (⟨"par2_recovery", false, "PAR2 file not provided", []⟩ :
        VerificationResult)].all
        (fun r => r.layer != "blake3_hash")) = true := by
  constructor
  · rfl
  · decide

/-- The PAR2 layer result appended by `verify_complete`. -/
def par2LayerResult (env : VerifyEnv) (par2_file : Option String)
    (metadata : Option ArchiveMetadata) : VerificationResult :=
  match par2_file with
  | some p => ArchiveVerifier.verify_par2_recovery env p
      (metadata.map (fun m => m.par2_settings))
  | none => ⟨"par2_recovery", false, "PAR2 file not provided", []⟩

/-- C3 amended: in a gate-passing `verify_complete` run, "not provided"
failures for sha256 and blake3 are reported only when the hash-file
map is entirely empty; a nonempty map yields exactly one result per
supplied algorithm (absent algorithms are silently omitted), and the
skip-variant emits no hash results at all for an empty map.  A missing
PAR2 file is always reported as a failed "PAR2 file not provided"
layer (when its layer is not skipped). -/
theorem C3_amended_not_provided_reporting (env : VerifyEnv)
    (archive_path : String) (hash_files : List (String × String))
    (par2_file : Option String) (metadata : Option ArchiveMetadata)
    (skip_layers : List String)
    (hex : env.pathExists archive_path = true)
    (hok : (ArchiveVerifier.verify_7z_integrity env archive_path).success = true) :
    (ArchiveVerifier.verify_complete env archive_path [] par2_file metadata =
      .ok ([ArchiveVerifier.verify_7z_integrity env archive_path] ++
           ArchiveVerifier.hashNotProvided ++
           [par2LayerResult env par2_file metadata])) ∧
    (hash_files ≠ [] →
      ArchiveVerifier.verify_complete env archive_path hash_files par2_file
          metadata =
        .ok ([ArchiveVerifier.verify_7z_integrity env archive_path] ++
             ArchiveVerifier.verify_hash_files env archive_path hash_files ++
             [par2LayerResult env par2_file metadata])) ∧
    ("7z_integrity" ∉ skip_layers → "par2_recovery" ∉ skip_layers →
      ArchiveVerifier.verify_complete_with_skip env archive_path [] none
          metadata skip_layers =
        .ok ([ArchiveVerifier.verify_7z_integrity env archive_path] ++
             [⟨"par2_recovery", false, "PAR2 file not provided", []⟩])) := by
  refine ⟨?_, ?_, ?_⟩
  · unfold ArchiveVerifier.verify_complete
    simp [hex, hok, par2LayerResult]
    cases par2_file <;> rfl
  · intro hne
    unfold ArchiveVerifier.verify_complete
    simp [hex, hok, hne, par2LayerResult]
    cases par2_file <;> rfl
  · intro hskip hskip2
    unfold ArchiveVerifier.verify_complete_with_skip
    simp [hex, hok, hskip, hskip2]

/-- Witness for C3's amended theorem at a concrete input: an empty
hash map yields the two "not provided" hash failures and the PAR2
"not provided" failure. -/
theorem C3_amended_witness :
    ArchiveVerifier.verify_complete envAllPass "a.7z" [] none none =
      .ok [⟨"7z_integrity", true, "7z integrity check passed", []⟩,
           ⟨"sha256_hash", false, "SHA256 hash file not provided", []⟩,
           ⟨"blake3_hash", false, "BLAKE3 hash file not provided", []⟩,
           ⟨"par2_recovery", false, "PAR2 file not provided", []⟩] :=
  (C3_amended_not_provided_reporting envAllPass "a.7z" [] none none []
    (by decide) (by decide)).1

/-- C5: the claim states the automatically derived profile always
passes profile-construction validation; on the code the 1 GiB–5 GiB
tier requests dictionary size `"32m"`, which
`SevenZipSettings.validate_dictionary_size` rejects (the valid set is
{128k, 1m, 4m, 16m, 64m, 256m, 512m}), so
`optimize_7z_compression_settings` raises a validation error there —
e.g. at a 2 GiB source — while the other tiers construct fine. -/
theorem C5_one_gib_tier_fails_validation :
    optimize_7z_compression_settings (2 * 1024 * 1024 * 1024) =
      .error "Dictionary size must be one of: 128k, 1m, 4m, 16m, 64m, 256m, 512m" ∧
    optimize_7z_compression_settings (50 * 1024 * 1024) =
      .ok ⟨3, "4m", 0, true, "LZMA2", false⟩ ∧
    optimize_7z_compression_settings (500 * 1024 * 1024) =
      .ok ⟨5, "16m", 0, true, "LZMA2", false⟩ ∧
    optimize_7z_compression_settings (6 * 1024 * 1024 * 1024) =
      .ok ⟨9, "64m", 0, true, "LZMA2", false⟩ := by
  refine ⟨by decide, by decide, by decide, by decide⟩

/-- C7 counterexample: with no custom name, `create_archive` derives
the archive name as `source_path.stem`, so the file source
`"data.tar.gz"` yields `"data.tar"`, not `"data"` as the claim's
compound-extension stripping requires. -/
theorem C7_counterexample :
    ColdStorageArchiver.derive_archive_name "data.tar.gz" none = "data.tar" ∧
    "data.tar" ≠ "data" := by
  constructor
  · rfl
  · decide

/-- C7 amended: the derived archive name is the `pathlib` stem of the
source path — exactly one trailing extension is stripped, for files
and directories alike (`"data.tar.gz"` → `"data.tar"`, `"data.7z"` →
`"data"`), and a name without an extension is unchanged (`"readme"`,
a directory `"data"`).  The descriptor-level name additionally strips
a residual `".tar"` from the archive file's stem. -/
theorem C7_amended_archive_naming :
    ColdStorageArchiver.derive_archive_name "data.tar.gz" none = "data.tar" ∧
    ColdStorageArchiver.derive_archive_name "data.7z" none = "data" ∧
    ColdStorageArchiver.derive_archive_name "readme" none = "readme" ∧
    ColdStorageArchiver.derive_archive_name "data" none = "data" ∧
    ColdStorageArchiver.derive_archive_name "/path/to/data" none = "data" ∧
    ColdStorageArchiver.derive_archive_name "src" (some "custom") = "custom" ∧
    ColdStorageArchiver.metadata_archive_name "data.tar.tar.zst" = "data.tar" ∧
    ColdStorageArchiver.metadata_archive_name "data.tar.zst" = "data" := by
  refine ⟨rfl, rfl, rfl, rfl, rfl, rfl, by decide, by decide⟩

/-- C9: both verification entry points raise `FileNotFoundError`
before attempting any layer when the archive path does not exist; no
result list is produced. -/
theorem C9_nonexistent_archive_raises (env : VerifyEnv) (p : String)
    (hash_files : List (String × String)) (par2_file : Option String)
    (metadata : Option ArchiveMetadata) (skip_layers : List String)
    (h : env.pathExists p = false) :
    ArchiveVerifier.verify_complete env p hash_files par2_file metadata =
      .error (.fnf ("Archive not found: " ++ p)) ∧
    ArchiveVerifier.verify_auto env p skip_layers =
      .error (.fnf ("Archive not found: " ++ p)) := by
  constructor
  · unfold ArchiveVerifier.verify_complete
    simp [h]
  · unfold ArchiveVerifier.verify_auto
    simp [h]

/-- Witness for C9 at a concrete input. -/
theorem C9_nonexistent_archive_raises_witness :
    envNoArchive.pathExists "missing.7z" = false ∧
    ArchiveVerifier.verify_complete envNoArchive "missing.7z" [] none none =
      .error (.fnf "Archive not found: missing.7z") ∧
    ArchiveVerifier.verify_auto envNoArchive "missing.7z" [] =
      .error (.fnf "Archive not found: missing.7z") :=
  ⟨by decide,
   (C9_nonexistent_archive_raises envNoArchive "missing.7z" [] none none []
      (by decide)).1,
   (C9_nonexistent_archive_raises envNoArchive "missing.7z" [] none none []
      (by decide)).2⟩

/-! ### C4 supporting lemmas -/

theorem unlinkStep_path (env : CleanupEnv) (fs : FS) (p : String) :
    ((unlinkStep env fs p).2).path = p := by
  unfold unlinkStep
  split
  · split <;> rfl
  · rfl

theorem rmtreeStep_path (env : CleanupEnv) (fs : FS) (d : String) :
    ((rmtreeStep env fs d).2).path = d := by
  unfold rmtreeStep
  split
  · split <;> rfl
  · rfl

theorem cleanupFiles_trace (env : CleanupEnv) (ps : List String) :
    ∀ fs, ((cleanupFiles env ps fs).2).map CleanupEvent.path = ps := by
  induction ps with
  | nil => intro fs; rfl
  | cons p ps ih => intro fs; simp [cleanupFiles, unlinkStep_path, ih]

theorem cleanupDirs_trace (env : CleanupEnv) (ds : List String) :
    ∀ fs, ((cleanupDirs env ds fs).2).map CleanupEvent.path = ds := by
  induction ds with
  | nil => intro fs; rfl
  | cons d ds ih => intro fs; simp [cleanupDirs, rmtreeStep_path, ih]

theorem unlinkStep_files_subset (env : CleanupEnv) (fs : FS) (p q : String) :
    q ∈ (unlinkStep env fs p).1.files → q ∈ fs.files := by
  unfold unlinkStep
  split
  · split
    · simp +contextual [List.mem_filter]
    · exact id
  · exact id

theorem unlinkStep_dirs (env : CleanupEnv) (fs : FS) (p : String) :
    (unlinkStep env fs p).1.dirs = fs.dirs := by
  unfold unlinkStep
  split
  · split <;> rfl
  · rfl

theorem unlinkStep_removes (env : CleanupEnv) (fs : FS) (p : String)
    (hok : env.unlinkOk p = true) : p ∉ (unlinkStep env fs p).1.files := by
  unfold unlinkStep
  split
  · rename_i hmem
    simp [hok, List.mem_filter]
  · rename_i hmem
    simpa using hmem

theorem cleanupFiles_files_mono (env : CleanupEnv) (ps : List String)
    (q : String) : ∀ fs, q ∉ fs.files → q ∉ (cleanupFiles env ps fs).1.files := by
  induction ps with
  | nil => intro fs h; exact h
  | cons p ps ih =>
      intro fs h
      exact ih _ (fun hc => h (unlinkStep_files_subset env fs p q hc))

theorem cleanupFiles_dirs (env : CleanupEnv) (ps : List String) :
    ∀ fs, (cleanupFiles env ps fs).1.dirs = fs.dirs := by
  induction ps with
  | nil => intro fs; rfl
  | cons p ps ih => intro fs; simp [cleanupFiles, ih, unlinkStep_dirs]

theorem cleanupFiles_removes (env : CleanupEnv) (ps : List String)
    (p : String) (hp : p ∈ ps) (hok : env.unlinkOk p = true) :
    ∀ fs, p ∉ (cleanupFiles env ps fs).1.files := by
  induction ps with
  | nil => cases hp
  | cons a ps ih =>
      intro fs
      rcases List.mem_cons.mp hp with rfl | hmem
      · exact cleanupFiles_files_mono env ps p _ (unlinkStep_removes env fs p hok)
      · exact ih hmem _

theorem rmtreeStep_dirs_subset (env : CleanupEnv) (fs : FS) (d q : String) :
    q ∈ (rmtreeStep env fs d).1.dirs → q ∈ fs.dirs := by
  unfold rmtreeStep
  split
  · split
    · simp +contextual [List.mem_filter]
    · exact id
  · exact id

theorem rmtreeStep_removes (env : CleanupEnv) (fs : FS) (d : String)
    (hok : env.rmtreeOk d = true) : d ∉ (rmtreeStep env fs d).1.dirs := by
  unfold rmtreeStep
  split
  · rename_i hmem
    simp [hok, List.mem_filter]
  · rename_i hmem
    simpa using hmem

theorem cleanupDirs_dirs_mono (env : CleanupEnv) (ds : List String)
    (q : String) : ∀ fs, q ∉ fs.dirs → q ∉ (cleanupDirs env ds fs).1.dirs := by
  induction ds with
  | nil => intro fs h; exact h
  | cons d ds ih =>
      intro fs h
      exact ih _ (fun hc => h (rmtreeStep_dirs_subset env fs d q hc))

theorem rmtreeStep_files_subset (env : CleanupEnv) (fs : FS) (d q : String) :
    q ∈ (rmtreeStep env fs d).1.files → q ∈ fs.files := by
  unfold rmtreeStep
  split
  · split
    · simp +contextual [List.mem_filter]
    · exact id
  · exact id

theorem cleanupDirs_files_mono (env : CleanupEnv) (ds : List String)
    (q : String) : ∀ fs, q ∉ fs.files → q ∉ (cleanupDirs env ds fs).1.files := by
  induction ds with
  | nil => intro fs h; exact h
  | cons d ds ih =>
      intro fs h
      exact ih _ (fun hc => h (rmtreeStep_files_subset env fs d q hc))

theorem cleanupDirs_removes (env : CleanupEnv) (ds : List String)
    (d : String) (hd : d ∈ ds) (hok : env.rmtreeOk d = true) :
    ∀ fs, d ∉ (cleanupDirs env ds fs).1.dirs := by
  induction ds with
  | nil => cases hd
  | cons a ds ih =>
      intro fs
      rcases List.mem_cons.mp hd with rfl | hmem
      · exact cleanupDirs_dirs_mono env ds d _ (rmtreeStep_removes env fs d hok)
      · exact ih hmem _

/-- C4: with cleanup enabled, a scope that exits normally touches no
tracked path (and records no deletion); a scope that exits with an
exception processes every tracked file first, in registration order,
then every tracked directory in reverse registration order (the
recorded deletion trace is exactly
`created_files ++ created_dirs.reverse`), and each deletion is
best-effort: for an arbitrary pattern of `OSError`s on other paths,
every tracked file whose own unlink succeeds is gone and every tracked
directory whose own rmtree succeeds is gone. -/
theorem C4_transactional_cleanup (env : CleanupEnv) (ops : SafeFileOps)
    (fs : FS) (h : ops.cleanup_on_error = true) :
    safe_file_operations_exit env ops false fs = (fs, []) ∧
    ((safe_file_operations_exit env ops true fs).2).map CleanupEvent.path =
      ops.created_files ++ ops.created_dirs.reverse ∧
    (∀ p ∈ ops.created_files, env.unlinkOk p = true →
      p ∉ (safe_file_operations_exit env ops true fs).1.files) ∧
    (∀ d ∈ ops.created_dirs, env.rmtreeOk d = true →
      d ∉ (safe_file_operations_exit env ops true fs).1.dirs) := by
  refine ⟨rfl, ?_, ?_, ?_⟩
  · unfold safe_file_operations_exit cleanup_created_files
    simp [h, cleanupFiles_trace, cleanupDirs_trace]
  · intro p hp hok
    unfold safe_file_operations_exit cleanup_created_files
    simp only [h, Bool.and_true, if_pos]
    exact cleanupDirs_files_mono env _ p _
      (cleanupFiles_removes env _ p hp hok fs)
  · intro d hd hok
    unfold safe_file_operations_exit cleanup_created_files
    simp only [h, Bool.and_true, if_pos]
    exact cleanupDirs_removes env _ d (by simpa using hd) hok _

/-- A concrete tracked-path set for the C4 witness. -/
def opsSample : SafeFileOps := ⟨true, ["f1", "f2"], ["d1", "d2"]⟩

/-- A concrete filesystem for the C4 witness. -/
def fsSample : FS := ⟨["f1", "f2", "x"], ["d1", "d2"]⟩

/-- A cleanup environment where unlinking `"f2"` raises `OSError` and
everything else succeeds. -/
def envCleanupSample : CleanupEnv := ⟨fun p => p != "f2", fun _ => true⟩

/-- Witness for C4 at a concrete input: normal exit leaves the
filesystem untouched; on exception exit the deletion trace processes
the files then the directories in reverse order, and `"f1"` is removed
even though unlinking `"f2"` failed. -/
theorem C4_transactional_cleanup_witness :
    opsSample.cleanup_on_error = true ∧
    safe_file_operations_exit envCleanupSample opsSample false fsSample =
      (fsSample, []) ∧
    ((safe_file_operations_exit envCleanupSample opsSample true fsSample).2).map
        CleanupEvent.path = ["f1", "f2", "d2", "d1"] ∧
    "f1" ∉ (safe_file_operations_exit envCleanupSample opsSample true
        fsSample).1.files :=
  ⟨by decide,
   (C4_transactional_cleanup envCleanupSample opsSample fsSample (by decide)).1,
   (C4_transactional_cleanup envCleanupSample opsSample fsSample (by decide)).2.1,
   (C4_transactional_cleanup envCleanupSample opsSample fsSample
      (by decide)).2.2.1 "f1" (by decide) (by decide)⟩

/-- C6: constructing a 7z profile (with the compression method fixed
to a valid one and a non-negative thread count) succeeds exactly when
the level lies in 1..9 and the lower-cased dictionary size belongs to
the enumerated set {128k, 1m, 4m, 16m, 64m, 256m, 512m}; constructing
a zstd profile (level within 1..22, threads ≥ 0, no long-distance
override) succeeds exactly when it is not the case that ultra mode is
set with level below 20. -/
theorem C6_profile_validation (level : Int) (dict : String)
    (threads : Int) (solid manual : Bool) (zlevel zthreads : Int)
    (long_mode ultra : Bool)
    (ht : 0 ≤ threads) (hz : 1 ≤ zlevel ∧ zlevel ≤ 22) (hzt : 0 ≤ zthreads) :
    (exceptIsOk (SevenZipSettings.make level dict threads solid "LZMA2" manual)
        = true ↔
      (1 ≤ level ∧ level ≤ 9 ∧ strToLower dict ∈ SEVENZIP_VALID_DICT_SIZES)) ∧
    (exceptIsOk (CompressionSettings.make zlevel zthreads long_mode none ultra)
        = true ↔
      ¬ (ultra = true ∧ zlevel < 20)) := by
  constructor
  · unfold SevenZipSettings.make
    split
    · rename_i hlv
      simp only [exceptIsOk]
      constructor
      · intro hc; cases hc
      · intro hc; exact absurd ⟨hc.1, hc.2.1⟩ hlv
    · rename_i hlv
      rw [not_not] at hlv
      split
      · rename_i hdict
        simp only [exceptIsOk]
        constructor
        · intro hc; cases hc
        · intro hc
          exact absurd (List.elem_iff.mpr hc.2.2) hdict
      · rename_i hdict
        rw [not_not] at hdict
        simp [exceptIsOk, ht, hlv.1, hlv.2, List.elem_iff.mp hdict,
          SEVENZIP_VALID_METHODS]
  · unfold CompressionSettings.make
    rw [if_neg (not_not.mpr hz), if_neg (not_not.mpr hzt)]
    by_cases hu : ultra = true ∧ zlevel < 20
    · simp [hu, exceptIsOk]
    · simp [hu, exceptIsOk]

/-- Witness for C6 at concrete inputs: an in-bounds 7z profile and an
in-bounds zstd profile both construct. -/
theorem C6_profile_validation_witness :
    (0 : Int) ≤ 0 ∧ ((1 : Int) ≤ 19 ∧ (19 : Int) ≤ 22) ∧
    (exceptIsOk (SevenZipSettings.make 5 "16m" 0 true "LZMA2" false) = true ↔
      ((1 : Int) ≤ 5 ∧ (5 : Int) ≤ 9 ∧
        strToLower "16m" ∈ SEVENZIP_VALID_DICT_SIZES)) ∧
    (exceptIsOk (CompressionSettings.make 19 0 true none false) = true ↔
      ¬ (false = true ∧ (19 : Int) < 20)) :=
  ⟨by decide, ⟨by decide, by decide⟩,
   (C6_profile_validation 5 "16m" 0 true false 19 0 true false
      (by decide) ⟨by decide, by decide⟩ (by decide)).1,
   (C6_profile_validation 5 "16m" 0 true false 19 0 true false
      (by decide) ⟨by decide, by decide⟩ (by decide)).2⟩

/-! ### C10 supporting lemmas -/

theorem exceptBind_ok {α β : Type} {x : Except String α}
    {f : α → Except String β} {b : β} (h : x >>= f = .ok b) :
    ∃ a, x = .ok a ∧ f a = .ok b := by
  cases x with
  | ok a => exact ⟨a, rfl, h⟩
  | error e => cases h

theorem ArchiveMetadata.make_ratio
    {sp ap an cv ca cai af : String} {sz : Option SevenZipSettings}
    {ps : PAR2Settings} {fc dc os cs : Int} {cr : ℚ}
    {vh hf : List (String × String)} {pf : List String}
    {hsr : Bool} {rd : Option String} {pt : ℚ} {td : Option String}
    {m : ArchiveMetadata}
    (h : ArchiveMetadata.make sp ap an cv ca cai af sz ps fc dc os cs cr
      vh hf pf hsr rd pt td = .ok m) :
    m.compression_ratio =
      (if 0 < m.original_size
       then (m.compressed_size : ℚ) / (m.original_size : ℚ) else 0) := by
  unfold ArchiveMetadata.make at h
  split at h
  · cases h
  · split at h
    · cases h
    · cases h
      rfl

/-- C10: `compression_ratio` always ends up equal to
`compressed_size / original_size` when `original_size` is positive and
`0` when it is zero, whatever value the constructor was given — both
for direct construction (`model_post_init` runs
`calculate_compression_ratio`, overwriting the supplied value) and for
any descriptor reloaded through `load_from_toml`. -/
theorem C10_compression_ratio_invariant
    (sp ap an cv ca cai af : String) (sz : Option SevenZipSettings)
    (ps : PAR2Settings) (fc dc os cs : Int) (cr : ℚ)
    (vh hf : List (String × String)) (pf : List String)
    (hsr : Bool) (rd : Option String) (pt : ℚ) (td : Option String)
    (m : ArchiveMetadata)
    (h : ArchiveMetadata.make sp ap an cv ca cai af sz ps fc dc os cs cr
      vh hf pf hsr rd pt td = .ok m) :
    m.compression_ratio =
      (if 0 < m.original_size
       then (m.compressed_size : ℚ) / (m.original_size : ℚ) else 0) ∧
    ∀ (t : TomlData) (now_iso : String) (m' : ArchiveMetadata),
      ArchiveMetadata.load_from_toml t now_iso = .ok m' →
      m'.compression_ratio =
        (if 0 < m'.original_size
         then (m'.compressed_size : ℚ) / (m'.original_size : ℚ) else 0) := by
  refine ⟨ArchiveMetadata.make_ratio h, ?_⟩
  intro t now_iso m' hld
  unfold ArchiveMetadata.load_from_toml at hld
  repeat obtain ⟨_, -, hld⟩ := exceptBind_ok hld
  exact ArchiveMetadata.make_ratio hld

/-- The metadata record produced by the C10 witness construction: the
supplied ratio 42 is overwritten to 0 because `original_size = 0`. -/
def metadataSampleZero : ArchiveMetadata :=
  ⟨"src", "a.7z", "a", "v", "t0", "t0", "7z", SevenZipSettings.default,
   PAR2Settings.default, 1, 0, 0, 60, 0, [], [], [], false, none, 0, none⟩

/-- Witness for C10 at a concrete input: constructing with
`original_size = 0`, `compressed_size = 60` and a bogus supplied ratio
of 42 yields a descriptor whose ratio is 0. -/
theorem C10_compression_ratio_invariant_witness :
    ArchiveMetadata.make "src" "a.7z" "a" "v" "t0" "t0" "7z" none
        PAR2Settings.default 1 0 0 60 42 [] [] [] false none 0 none =
      .ok metadataSampleZero ∧
    metadataSampleZero.compression_ratio =
      (if 0 < metadataSampleZero.original_size
       then (metadataSampleZero.compressed_size : ℚ) /
         (metadataSampleZero.original_size : ℚ) else 0) :=
  ⟨by decide,
   (C10_compression_ratio_invariant "src" "a.7z" "a" "v" "t0" "t0" "7z"
      none PAR2Settings.default 1 0 0 60 42 [] [] [] false none 0 none
      metadataSampleZero (by decide)).1⟩

/-! ### C8 supporting definitions and lemmas -/

/-- The pydantic invariants every constructed `ArchiveMetadata` (and
its nested settings) satisfies; `make` only ever returns records with
these properties. -/
def ArchiveMetadata.WF (m : ArchiveMetadata) : Prop :=
  m.archive_format ∈ SUPPORTED_OUTPUT_FORMATS ∧
  0 ≤ m.file_count ∧ 0 ≤ m.directory_count ∧ 0 ≤ m.original_size ∧
  0 ≤ m.compressed_size ∧ 0 ≤ m.compression_ratio ∧
  0 ≤ m.processing_time_seconds ∧
  m.compression_ratio =
    (if 0 < m.original_size
     then (m.compressed_size : ℚ) / (m.original_size : ℚ) else 0) ∧
  (1 ≤ m.sevenzip_settings.level ∧ m.sevenzip_settings.level ≤ 9) ∧
  strToLower m.sevenzip_settings.dictionary_size =
    m.sevenzip_settings.dictionary_size ∧
  m.sevenzip_settings.dictionary_size ∈ SEVENZIP_VALID_DICT_SIZES ∧
  0 ≤ m.sevenzip_settings.threads ∧
  m.sevenzip_settings.method ∈ SEVENZIP_VALID_METHODS ∧
  (1 ≤ m.par2_settings.redundancy_percent ∧
    m.par2_settings.redundancy_percent ≤ 50) ∧
  (100 ≤ m.par2_settings.block_count ∧ m.par2_settings.block_count ≤ 32768)

theorem roundTo_nonneg {q : ℚ} (h : 0 ≤ q) (n : ℕ) : 0 ≤ roundTo q n := by
  unfold roundTo
  have h1 : (0 : ℤ) ≤ round (q * 10 ^ n) := by
    rw [round_eq]
    exact Int.floor_nonneg.mpr (by positivity)
  have h2 : (0 : ℚ) ≤ ((round (q * 10 ^ n) : ℤ) : ℚ) := by exact_mod_cast h1
  positivity

theorem sevenzip_settings_make_ok {l : Int} {d : String} {t : Int}
    {s : Bool} {me : String} {man : Bool}
    (h1 : 1 ≤ l) (h2 : l ≤ 9) (h3 : strToLower d = d)
    (h4 : d ∈ SEVENZIP_VALID_DICT_SIZES) (h5 : 0 ≤ t)
    (h6 : me ∈ SEVENZIP_VALID_METHODS) :
    SevenZipSettings.make l d t s me man = .ok ⟨l, d, t, s, me, man⟩ := by
  unfold SevenZipSettings.make
  rw [h3, if_neg (not_not.mpr ⟨h1, h2⟩),
    if_neg (not_not.mpr (List.elem_iff.mpr h4)),
    if_neg (not_not.mpr h5),
    if_neg (not_not.mpr (List.elem_iff.mpr h6))]

theorem par2_settings_make_ok {r b : Int}
    (h1 : 1 ≤ r) (h2 : r ≤ 50) (h3 : 100 ≤ b) (h4 : b ≤ 32768) :
    PAR2Settings.make r b = .ok ⟨r, b⟩ := by
  unfold PAR2Settings.make
  rw [if_neg (not_not.mpr ⟨h1, h2⟩), if_neg (not_not.mpr ⟨h3, h4⟩)]

theorem archive_metadata_make_ok
    {sp ap an cv ca cai af : String} {sz : Option SevenZipSettings}
    {ps : PAR2Settings} {fc dc os cs : Int} {cr : ℚ}
    {vh hf : List (String × String)} {pf : List String}
    {hsr : Bool} {rd : Option String} {pt : ℚ} {td : Option String}
    (hfmt : af ∈ SUPPORTED_OUTPUT_FORMATS)
    (hge : 0 ≤ fc ∧ 0 ≤ dc ∧ 0 ≤ os ∧ 0 ≤ cs ∧ 0 ≤ cr ∧ 0 ≤ pt) :
    ArchiveMetadata.make sp ap an cv ca cai af sz ps fc dc os cs cr
        vh hf pf hsr rd pt td =
      .ok ⟨sp, ap, an, cv, ca, (if cai = "" then ca else cai), af,
           sz.getD SevenZipSettings.default, ps, fc, dc, os, cs,
           (if 0 < os then (cs : ℚ) / (os : ℚ) else 0),
           vh, hf, pf, hsr, rd, pt, td⟩ := by
  unfold ArchiveMetadata.make
  rw [if_neg (not_not.mpr (List.elem_iff.mpr hfmt)), if_neg (not_not.mpr hge)]

theorem except_ok_bind {e α β : Type} (a : α) (f : α → Except e β) :
    (Except.ok a >>= f : Except e β) = f a := rfl

theorem except_map_ok {e α β : Type} (g : α → β) (a : α) :
    (Except.map g (Except.ok a) : Except e β) = .ok (g a) := rfl

/-- C8: reloading a saved descriptor reproduces it exactly, up to the
`created_at` datetime collapsing onto its ISO string and the
unserialised `manual_settings` flag resetting — in particular the
archive name, the source and archive paths, the hash and hash-file
maps, the PAR2 file list, the PAR2 redundancy and block count, and the
content statistics (counts, sizes, ratio, root info) are all
preserved; and a descriptor with every section (hence every optional
field) absent still loads. -/
theorem C8_descriptor_roundtrip (m : ArchiveMetadata) (now_iso : String)
    (h : m.WF) :
    ArchiveMetadata.load_from_toml m.to_toml_dict now_iso =
      .ok { m with
              created_at := m.created_at_iso,
              sevenzip_settings :=
                { m.sevenzip_settings with manual_settings := false } } ∧
    ArchiveMetadata.load_from_toml {} now_iso =
      .ok ⟨"", "", "", "unknown", now_iso, now_iso, "7z",
           SevenZipSettings.default, PAR2Settings.default,
           0, 0, 0, 0, 0, [], [], [], false, none, 0, none⟩ := by
  obtain ⟨h1, h2, h3, h4, h5, h6, h7, h8, ⟨h9a, h9b⟩, h10, h11, h12, h13,
    ⟨h14a, h14b⟩, ⟨h15a, h15b⟩⟩ := h
  constructor
  · obtain ⟨sp, ap, an, cv, ca, cai, af, ⟨szl, szd, szt, szs, szm, szman⟩,
      ⟨pr, pb⟩, fc, dc, os, cs, cr, vh, hfl, pfl, hsr, rd, pt, td⟩ := m
    have h1' : af ∈ SUPPORTED_OUTPUT_FORMATS := h1
    have h2' : 0 ≤ fc := h2
    have h3' : 0 ≤ dc := h3
    have h4' : 0 ≤ os := h4
    have h5' : 0 ≤ cs := h5
    have h6' : 0 ≤ cr := h6
    have h7' : 0 ≤ pt := h7
    have h8' : cr = (if 0 < os then (cs : ℚ) / (os : ℚ) else 0) := h8
    have h9a' : 1 ≤ szl := h9a
    have h9b' : szl ≤ 9 := h9b
    have h10' : strToLower szd = szd := h10
    have h11' : szd ∈ SEVENZIP_VALID_DICT_SIZES := h11
    have h12' : 0 ≤ szt := h12
    have h13' : szm ∈ SEVENZIP_VALID_METHODS := h13
    have h14a' : 1 ≤ pr := h14a
    have h14b' : pr ≤ 50 := h14b
    have h15a' : 100 ≤ pb := h15a
    have h15b' : pb ≤ 32768 := h15b
    cases rd <;> cases td <;>
      simp [ArchiveMetadata.load_from_toml, ArchiveMetadata.to_toml_dict,
        ArchiveMetadata.get_sevenzip_dict, ArchiveMetadata.total_entries,
        ArchiveMetadata.sevenzip_section_settings,
        SevenZipSettings.from_toml, tomlGetStr, tomlGetOptStr, tomlGetInt,
        tomlGetFloat, tomlGetBool, tomlGetStrList, tomlGetStrTable,
        List.lookup, except_ok_bind, except_map_ok,
        sevenzip_settings_make_ok h9a' h9b' h10' h11' h12' h13',
        par2_settings_make_ok h14a' h14b' h15a' h15b',
        archive_metadata_make_ok h1' ⟨h2', h3', h4', h5', roundTo_nonneg h6' 4, h7'⟩,
        h8'.symm]
  · rfl

/-- A concrete well-formed descriptor for the C8 witness. -/
def metadataRoundtripSample : ArchiveMetadata :=
  ⟨"/data/src", "/out/a/a.tar.zst", "a", "1.0.0-dev", "2026-01-01T00:00:00",
   "2026-01-01T00:00:00", "7z", ⟨5, "16m", 0, true, "LZMA2", true⟩,
   ⟨10, 2000⟩, 3, 1, 0, 60, 0,
   [("sha256", "deadbeef"), ("blake3", "cafe")],
   [("sha256", "a.tar.zst.sha256"), ("blake3", "a.tar.zst.blake3")],
   ["a.tar.zst.par2", "a.tar.zst.vol000+100.par2"],
   true, some "root", 0, some "/tmp/x"⟩

/-- Witness for C8 at a concrete input: the sample descriptor is
well-formed and reloads to itself (its `manual_settings` flag, set
above, resets to `false`). -/
theorem C8_descriptor_roundtrip_witness :
    metadataRoundtripSample.WF ∧
    ArchiveMetadata.load_from_toml metadataRoundtripSample.to_toml_dict
        "2026-02-02T00:00:00" =
      .ok { metadataRoundtripSample with
              created_at := metadataRoundtripSample.created_at_iso,
              sevenzip_settings :=
                { metadataRoundtripSample.sevenzip_settings with
                    manual_settings := false } } :=
  ⟨by unfold ArchiveMetadata.WF; decide,
   (C8_descriptor_roundtrip metadataRoundtripSample "2026-02-02T00:00:00"
      (by unfold ArchiveMetadata.WF; decide)).1⟩

end Coldpack
